import Mathlib

/-!
Shallow embedding of the vendure-phone-auth-plugin core
(src/phone-auth.plugin.ts): the `PhoneOtp` entity, `PhoneAuthService`
(`requestOtp`, `verifyOtp`, `getDefaultUserData`), the GraphQL resolver
`PhoneAuthResolver.requestOtp`, and `PhoneAuthenticationStrategy.authenticate`.

The database repository is modelled as an in-memory list of records with a
fresh-id counter; TypeORM `findOne(conditions)` becomes `List.find?` on the
record list, `update(id, patch)` a map over the list.  Randomness is an
explicit stream `rand : Nat → Nat`.  The third-party `otp-generator` library
is not part of the repository; its `generate` is modelled from the spec.
-/

set_option linter.unusedVariables false

namespace PhoneAuth

/-- Digit character class of the code generator. -/
def digitChars : List Char :=
  ['0', '1', '2', '3', '4', '5', '6', '7', '8', '9']

/-- Upper-case character class of the code generator. -/
def upperChars : List Char :=
  ['A', 'B', 'C', 'D', 'E', 'F', 'G', 'H', 'I', 'J', 'K', 'L', 'M',
   'N', 'O', 'P', 'Q', 'R', 'S', 'T', 'U', 'V', 'W', 'X', 'Y', 'Z']

/-- Lower-case character class of the code generator. -/
def lowerChars : List Char :=
  ['a', 'b', 'c', 'd', 'e', 'f', 'g', 'h', 'i', 'j', 'k', 'l', 'm',
   'n', 'o', 'p', 'q', 'r', 's', 't', 'u', 'v', 'w', 'x', 'y', 'z']

/-- Special character class of the code generator. -/
def specialList : List Char := ['#', '!', '&', '@']

/-- Boolean policy passed to the code generator (second argument of
`otpGenerator.generate` in `requestOtp`). -/
structure GenPolicy where
  digits : Bool
  upperCaseAlphabets : Bool
  lowerCaseAlphabets : Bool
  specialChars : Bool
deriving Repr, DecidableEq

/-- Modelled from the spec: the code generator draws characters from the
union of the enabled character classes; a policy with no enabled class
falls back to digits only.  (The `otp-generator` npm library is an external
dependency, not part of this repository.) -/
def GenPolicy.charset (p : GenPolicy) : List Char :=
  let cs :=
    (if p.digits then digitChars else [])
      ++ (if p.upperCaseAlphabets then upperChars else [])
      ++ (if p.lowerCaseAlphabets then lowerChars else [])
      ++ (if p.specialChars then specialList else [])
  if cs.isEmpty then digitChars else cs

/-- Modelled from the spec: `otpGenerator.generate(length, policy)` returns a
string of exactly `length` characters, each drawn from the policy's charset
by the random stream `rand`. -/
def generate (len : Nat) (p : GenPolicy) (rand : Nat → Nat) : String :=
  String.mk ((List.range len).map fun i =>
    p.charset.getD (rand i % p.charset.length) '0')

/-- Optional generator options of the plugin configuration
(`PhoneAuthPluginOptions.otpGeneratorOptions`); every field is optional in
TypeScript, hence `Option`. -/
structure OtpGeneratorOptions where
  length : Option Nat
  upperCaseAlphabets : Option Bool
  specialChars : Option Bool
  digits : Option Bool
  lowerCaseAlphabets : Option Bool
deriving Repr, DecidableEq

/-- JavaScript `a || b` for an optional boolean `a`: `undefined` and `false`
are falsy, so the right operand is returned unless `a` is `true`. -/
def jsOrBool (a : Option Bool) (b : Bool) : Bool :=
  match a with
  | some true => true
  | _ => b

/-- Profile data returned by `defaultUserDataBuilder`. -/
structure UserData where
  emailAddress : String
  firstName : String
  lastName : String
deriving Repr, DecidableEq

/-- Plugin options (`PhoneAuthPluginOptions`): the optional notifier
`sendOtp` (which may fail, i.e. reject), the required profile builder, and
the optional generator options. -/
structure PluginOptions where
  sendOtp : Option (String → String → Except String Unit)
  defaultUserDataBuilder : String → UserData
  otpGeneratorOptions : Option OtpGeneratorOptions

/-- Default generation policy of the `else` branch of `requestOtp`
(lines 82-88): 6 digits, everything else off. -/
def defaultPolicy : GenPolicy :=
  { digits := true, upperCaseAlphabets := false
  , lowerCaseAlphabets := false, specialChars := false }

/-- Effective (length, policy) that `requestOtp` passes to the generator
(lines 74-88).  The `if` guard is the JS truthiness of
`options?.otpGeneratorOptions && options?.otpGeneratorOptions.length`;
note that the source writes `digits: ... || true`, so digits end up
enabled for every configuration. -/
def effectiveGenConfig (o : Option OtpGeneratorOptions) : Nat × GenPolicy :=
  match o with
  | some g =>
    match g.length with
    | some n =>
      if n ≠ 0 then
        (n, { upperCaseAlphabets := jsOrBool g.upperCaseAlphabets false
            , specialChars := jsOrBool g.specialChars false
            , digits := jsOrBool g.digits true
            , lowerCaseAlphabets := jsOrBool g.lowerCaseAlphabets false })
      else (6, defaultPolicy)
    | none => (6, defaultPolicy)
  | none => (6, defaultPolicy)

/-- Code that `requestOtp` stores in `phoneOtp.otp` for a given
configuration and random stream. -/
def genCode (opts : PluginOptions) (rand : Nat → Nat) : String :=
  generate (effectiveGenConfig opts.otpGeneratorOptions).1
    (effectiveGenConfig opts.otpGeneratorOptions).2 rand

/-- Persisted `PhoneOtp` entity: `phone`, `otp`, `verified`, plus the
id the database assigns on save. -/
structure OtpRecord where
  id : Nat
  phone : String
  otp : String
  verified : Bool
deriving Repr, DecidableEq

/-- The PhoneOtp repository: the saved records (in insertion order) and the
next fresh id. -/
structure OtpStore where
  records : List OtpRecord
  nextId : Nat
deriving Repr, DecidableEq

/-- Repository `save` of a new record: assigns the fresh id and appends. -/
def OtpStore.save (s : OtpStore) (phone otp : String) (v : Bool) : OtpStore :=
  { records := s.records ++ [{ id := s.nextId, phone := phone, otp := otp, verified := v }]
  , nextId := s.nextId + 1 }

/-- Confirmation message returned by `requestOtp` on the persisting paths. -/
def otpSentMsg : String := "OTP sent successfully, please verify"

/-- PhoneAuthService.requestOtp (lines 69-105).  Builds the record with the
generated code and `verified = false`; with a notifier configured it sends
first and persists only on success (on failure the error is logged and the
function falls through, returning `undefined`, i.e. `none`); without a
notifier it persists unconditionally.  The `otp` argument of the method is
never read. -/
def requestOtp (opts : PluginOptions) (rand : Nat → Nat) (s : OtpStore)
    (phone otpArg : String) : Option String × OtpStore :=
  let code := genCode opts rand
  match opts.sendOtp with
  | some send =>
    match send phone code with
    | Except.ok _ => (some otpSentMsg, s.save phone code false)
    | Except.error _ => (none, s)
  | none => (some otpSentMsg, s.save phone code false)

/-- Match condition of `verifyOtp`'s `findOne`: the example entity has
`phone`, `otp` and `verified = false` set, so TypeORM matches on exactly
those three columns. -/
def otpMatch (phone code : String) (r : OtpRecord) : Bool :=
  r.phone == phone && r.otp == code && r.verified == false

/-- Repository `findOne({phone, otp, verified: false})`: the first stored
record matching all three columns. -/
def findUnverifiedMatch (s : OtpStore) (phone code : String) : Option OtpRecord :=
  s.records.find? (otpMatch phone code)

/-- Repository `update(id, { verified: true })`. -/
def markVerified (s : OtpStore) (id : Nat) : OtpStore :=
  { s with records := s.records.map fun r =>
      if r.id = id then { r with verified := true } else r }

/-- PhoneAuthService.verifyOtp (lines 114-131): find an unverified record
with this phone and code; if found, mark it verified and return true,
otherwise return false. -/
def verifyOtp (s : OtpStore) (phone code : String) : Bool × OtpStore :=
  match findUnverifiedMatch s phone code with
  | some r => (true, markVerified s r.id)
  | none => (false, s)

/-- Arguments of the GraphQL mutation `requestOtp` as the resolver reads
them (`args.phone`, `args.otp`). -/
structure RequestOtpArgs where
  phone : String
  otp : String
deriving Repr, DecidableEq

/-- PhoneAuthResolver.requestOtp (lines 142-145): forwards `args.phone` and
`args.otp` to the service. -/
def resolverRequestOtp (opts : PluginOptions) (rand : Nat → Nat)
    (s : OtpStore) (args : RequestOtpArgs) : Option String × OtpStore :=
  requestOtp opts rand s args.phone args.otp

/-- User identity held by the external authentication service, as created by
`createCustomerAndUser({strategy, externalIdentifier, verified, ...})`. -/
structure Identity where
  id : Nat
  strategy : String
  externalIdentifier : String
  verified : Bool
deriving Repr, DecidableEq

/-- Customer record underlying an identity, holding the profile fields and
linked to its user by `userId`. -/
structure Customer where
  id : Nat
  userId : Nat
  emailAddress : String
  firstName : String
  lastName : String
  phoneNumber : String
deriving Repr, DecidableEq

/-- State of the external directory (ExternalAuthenticationService +
CustomerService): users, customers and a fresh-id counter. -/
structure Directory where
  users : List Identity
  customers : List Customer
  nextId : Nat
deriving Repr, DecidableEq

/-- `externalAuthenticationService.findCustomerUser(ctx, name, phone)`:
look up an identity by strategy name and external identifier. -/
def findCustomerUser (d : Directory) (strategy identifier : String) :
    Option Identity :=
  d.users.find? fun u =>
    u.strategy == strategy && u.externalIdentifier == identifier

/-- `externalAuthenticationService.createCustomerAndUser`: creates the user
identity and its customer record (profile fields from the builder's data,
no phone number yet) and returns the new user. -/
def createCustomerAndUser (d : Directory) (strategy externalIdentifier : String)
    (verified : Bool) (data : UserData) : Identity × Directory :=
  let u : Identity :=
    { id := d.nextId, strategy := strategy
    , externalIdentifier := externalIdentifier, verified := verified }
  let c : Customer :=
    { id := d.nextId + 1, userId := d.nextId
    , emailAddress := data.emailAddress, firstName := data.firstName
    , lastName := data.lastName, phoneNumber := "" }
  (u, { users := u :: d.users, customers := c :: d.customers
      , nextId := d.nextId + 2 })

/-- `customerService.findOneByUserId(ctx, userId)`. -/
def findOneByUserId (d : Directory) (userId : Nat) : Option Customer :=
  d.customers.find? fun c => c.userId == userId

/-- `customerService.update(ctx, {id, phoneNumber, firstName})`. -/
def updateCustomer (d : Directory) (cid : Nat)
    (phoneNumber firstName : String) : Directory :=
  { d with customers := d.customers.map fun c =>
      if c.id = cid then { c with phoneNumber := phoneNumber, firstName := firstName } else c }

/-- Directory operations performed by `authenticate`, in call order, to make
"performs no directory operation" statable. -/
inductive DirOp where
  | findUser (strategy identifier : String)
  | createIdentity (strategy externalIdentifier : String) (verified : Bool)
      (emailAddress firstName lastName : String)
  | findCustomer (userId : Nat)
  | updateCustomer (id : Nat) (phoneNumber firstName : String)
deriving Repr, DecidableEq

/-- Return value of `authenticate`: a user, a failure-reason string, or a
rejected promise. -/
inductive AuthResult where
  | user (u : Identity)
  | failure (reason : String)
  | rejected (message : String)
deriving Repr, DecidableEq

/-- Result of one `authenticate` call: its return value, the OTP store and
directory afterwards, and the directory operations it performed. -/
structure AuthOutcome where
  result : AuthResult
  store : OtpStore
  dir : Directory
  ops : List DirOp
deriving Repr, DecidableEq

/-- PhoneAuthenticationStrategy.authenticate (lines 179-236): verify the
OTP ("Invalid OTP" on failure); return an existing identity if one matches
(strategy "phone", identifier = phone); otherwise build default user data,
refuse an empty email address, create the user and customer, look the
customer up by the new user's id ("Customer not found" rejection if
absent), update its phoneNumber and firstName to the raw phone string, and
return the new user. -/
def authenticate (opts : PluginOptions) (s : OtpStore) (d : Directory)
    (phone otp : String) : AuthOutcome :=
  let vres := verifyOtp s phone otp
  if vres.1 = false then
    { result := .failure "Invalid OTP", store := vres.2, dir := d, ops := [] }
  else
    match findCustomerUser d "phone" phone with
    | some u =>
      { result := .user u, store := vres.2, dir := d
      , ops := [.findUser "phone" phone] }
    | none =>
      let ud := opts.defaultUserDataBuilder phone
      if ud.emailAddress.length = 0 then
        { result := .failure "Valid default email address is required"
        , store := vres.2, dir := d, ops := [.findUser "phone" phone] }
      else
        let cr := createCustomerAndUser d "phone" phone true ud
        let ops0 : List DirOp :=
          [.findUser "phone" phone,
           .createIdentity "phone" phone true ud.emailAddress ud.firstName ud.lastName,
           .findCustomer cr.1.id]
        match findOneByUserId cr.2 cr.1.id with
        | none =>
          { result := .rejected "Customer not found", store := vres.2
          , dir := cr.2, ops := ops0 }
        | some c =>
          { result := .user cr.1, store := vres.2
          , dir := updateCustomer cr.2 c.id phone phone
          , ops := ops0 ++ [.updateCustomer c.id phone phone] }

/-- One client-visible OTP-service operation, for stating reachable-state
invariants over arbitrary call sequences. -/
inductive Op where
  | request (phone otpArg : String) (rand : Nat → Nat)
  | verify (phone code : String)

/-- Effect of one operation on the OTP store. -/
def step (opts : PluginOptions) (s : OtpStore) : Op → OtpStore
  | .request phone otpArg rand => (requestOtp opts rand s phone otpArg).2
  | .verify phone code => (verifyOtp s phone code).2

/-- Store reached from the empty database by a sequence of operations. -/
def run (opts : PluginOptions) (ops : List Op) : OtpStore :=
  ops.foldl (step opts) { records := [], nextId := 0 }

/-- Database well-formedness: record ids are below the fresh-id counter and
pairwise distinct. -/
def storeWF (s : OtpStore) : Prop :=
  (∀ r ∈ s.records, r.id < s.nextId)
    ∧ s.records.Pairwise fun a b => a.id ≠ b.id

/-! Concrete fixtures used by witnesses. -/

/-- A store holding one fresh unverified record. -/
def sampleStore : OtpStore :=
  { records := [{ id := 0, phone := "+15551234567", otp := "482913", verified := false }]
  , nextId := 1 }

/-- Options with no notifier and a builder returning a usable email. -/
def sampleOpts : PluginOptions :=
  { sendOtp := none
  , defaultUserDataBuilder := fun _ =>
      { emailAddress := "u@x.com", firstName := "", lastName := "" }
  , otpGeneratorOptions := none }

/-- A notifier that always fails. -/
def failingSend : String → String → Except String Unit :=
  fun _ _ => Except.error "delivery failed"

/-- Options with the always-failing notifier. -/
def failingOpts : PluginOptions :=
  { sendOtp := some failingSend
  , defaultUserDataBuilder := fun _ =>
      { emailAddress := "u@x.com", firstName := "", lastName := "" }
  , otpGeneratorOptions := none }

/-- Options whose builder returns an empty email address. -/
def emptyEmailOpts : PluginOptions :=
  { sendOtp := none
  , defaultUserDataBuilder := fun _ =>
      { emailAddress := "", firstName := "", lastName := "" }
  , otpGeneratorOptions := none }

/-- An empty directory. -/
def emptyDir : Directory := { users := [], customers := [], nextId := 0 }

/-- Generator options requesting length 4, upper-case only, digits
explicitly disabled. -/
def digitsDisabledOptions : OtpGeneratorOptions :=
  { length := some 4, upperCaseAlphabets := some true, specialChars := some false
  , digits := some false, lowerCaseAlphabets := some false }

/-- Plugin options carrying `digitsDisabledOptions`. -/
def digitsDisabledPluginOpts : PluginOptions :=
  { sendOtp := none
  , defaultUserDataBuilder := fun _ =>
      { emailAddress := "u@x.com", firstName := "", lastName := "" }
  , otpGeneratorOptions := some digitsDisabledOptions }

/-! Helper lemmas. -/

/-- When the matching records form exactly the singleton `[a]`, `find?`
returns `a`. -/
theorem find?_of_filter_eq_singleton {p : OtpRecord → Bool} {l : List OtpRecord}
    {a : OtpRecord} (h : l.filter p = [a]) : l.find? p = some a := by
  induction l with
  | nil => simp at h
  | cons x xs ih =>
    rw [List.filter_cons] at h
    by_cases hx : p x
    · rw [if_pos hx] at h
      injection h with h1 h2
      subst h1
      simp [List.find?, hx]
    · rw [if_neg hx] at h
      simp only [List.find?, Bool.not_eq_true] at hx ⊢
      rw [hx]
      exact ih h

/-- After marking the unique match verified, no unverified match remains. -/
theorem no_unverified_match_after_mark {s : OtpStore} {phone code : String}
    {a : OtpRecord} (h : s.records.filter (otpMatch phone code) = [a]) :
    findUnverifiedMatch (markVerified s a.id) phone code = none := by
  rw [findUnverifiedMatch, List.find?_eq_none]
  intro x hx
  rw [markVerified] at hx
  simp only [List.mem_map] at hx
  obtain ⟨r, hr, rfl⟩ := hx
  by_cases hid : r.id = a.id
  · simp [hid, otpMatch]
  · rw [if_neg hid]
    intro hmatch
    have hmem : r ∈ s.records.filter (otpMatch phone code) :=
      List.mem_filter.2 ⟨hr, hmatch⟩
    rw [h] at hmem
    simp only [List.mem_singleton] at hmem
    exact hid (by rw [hmem])

/-! Claim theorems. -/

/-- C9: if no stored record matches (phone, code) with `verified = false`,
then `verifyOtp` returns false and leaves the store — every record and all
its fields — exactly as it was. -/
theorem verifyOtp_no_match_frame (s : OtpStore) (phone code : String)
    (h : ∀ r ∈ s.records, otpMatch phone code r = false) :
    verifyOtp s phone code = (false, s) := by
  have hf : findUnverifiedMatch s phone code = none := by
    rw [findUnverifiedMatch, List.find?_eq_none]
    intro x hx
    simp [h x hx]
  rw [verifyOtp, hf]

/-- C9 witness: a store with one already-verified matching record and one
wrong-code record is untouched by `verifyOtp`. -/
theorem verifyOtp_no_match_frame_witness :
    (∀ r ∈ (OtpStore.mk
        [{ id := 0, phone := "+1", otp := "111111", verified := true },
         { id := 1, phone := "+1", otp := "222222", verified := false }] 2).records,
       otpMatch "+1" "111111" r = false)
    ∧ verifyOtp (OtpStore.mk
        [{ id := 0, phone := "+1", otp := "111111", verified := true },
         { id := 1, phone := "+1", otp := "222222", verified := false }] 2) "+1" "111111"
      = (false, OtpStore.mk
        [{ id := 0, phone := "+1", otp := "111111", verified := true },
         { id := 1, phone := "+1", otp := "222222", verified := false }] 2) :=
  ⟨by decide, verifyOtp_no_match_frame _ "+1" "111111" (by decide)⟩

/-- C3: with a notifier configured whose `send` fails on the generated
code, `requestOtp` persists nothing (the store is returned unchanged) and
returns `none` — the caller gets neither a confirmation string nor an
explicit error. -/
theorem requestOtp_delivery_failure (opts : PluginOptions) (rand : Nat → Nat)
    (s : OtpStore) (phone otpArg : String)
    (send : String → String → Except String Unit) (e : String)
    (hs : opts.sendOtp = some send)
    (hf : send phone (genCode opts rand) = Except.error e) :
    requestOtp opts rand s phone otpArg = (none, s) := by
  simp only [requestOtp, hs, hf]

/-- C3 witness: the always-failing notifier leaves the sample store
unchanged and yields no return value. -/
theorem requestOtp_delivery_failure_witness :
    failingOpts.sendOtp = some failingSend
    ∧ failingSend "+1000" (genCode failingOpts (fun _ => 0)) = Except.error "delivery failed"
    ∧ requestOtp failingOpts (fun _ => 0) sampleStore "+1000" "x" = (none, sampleStore) :=
  ⟨rfl, rfl,
    requestOtp_delivery_failure failingOpts (fun _ => 0) sampleStore "+1000" "x"
      failingSend "delivery failed" rfl rfl⟩

/-- C8: with no notifier configured, `requestOtp` appends exactly one new
record — phone as requested, the generated code, `verified = false` — and
returns the (non-empty) confirmation string. -/
theorem requestOtp_no_notifier_persists (opts : PluginOptions) (rand : Nat → Nat)
    (s : OtpStore) (phone otpArg : String)
    (h : opts.sendOtp = none) :
    requestOtp opts rand s phone otpArg =
      (some otpSentMsg,
        { records := s.records
            ++ [{ id := s.nextId, phone := phone, otp := genCode opts rand, verified := false }]
        , nextId := s.nextId + 1 })
    ∧ otpSentMsg ≠ "" := by
  refine ⟨?_, by decide⟩
  simp only [requestOtp, h, OtpStore.save]

/-- C8 witness: requesting an OTP against the sample store in dev mode
appends one unverified record and returns the confirmation string. -/
theorem requestOtp_no_notifier_persists_witness :
    sampleOpts.sendOtp = none
    ∧ (requestOtp sampleOpts (fun _ => 0) sampleStore "+15551234567" "x" =
        (some otpSentMsg,
          { records := sampleStore.records
              ++ [{ id := sampleStore.nextId, phone := "+15551234567"
                  , otp := genCode sampleOpts (fun _ => 0), verified := false }]
          , nextId := sampleStore.nextId + 1 })
        ∧ otpSentMsg ≠ "") :=
  ⟨rfl, requestOtp_no_notifier_persists sampleOpts (fun _ => 0) sampleStore
    "+15551234567" "x" rfl⟩

/-- C10: the `otp` argument of the requestOtp mutation is dead: two
resolver calls differing only in it (same options, random stream, store and
phone) produce the identical return value and identical persisted state. -/
theorem resolver_otp_arg_no_effect (opts : PluginOptions) (rand : Nat → Nat)
    (s : OtpStore) (phone o1 o2 : String) :
    resolverRequestOtp opts rand s { phone := phone, otp := o1 }
      = resolverRequestOtp opts rand s { phone := phone, otp := o2 } := rfl

/-- C2: the source passes `digits: options.digits || true` to the
generator, so a configuration that disables digits and enables upper-case
letters still generates with digits enabled, and `requestOtp` can store a
code consisting entirely of digits. -/
theorem requestOtp_digits_always_enabled :
    digitsDisabledOptions.digits = some false
    ∧ (effectiveGenConfig (some digitsDisabledOptions)).2.digits = true
    ∧ genCode digitsDisabledPluginOpts (fun _ => 0) = "0000"
    ∧ (∀ c ∈ "0000".data, c ∈ digitChars ∧ c ∉ upperChars)
    ∧ (requestOtp digitsDisabledPluginOpts (fun _ => 0)
        { records := [], nextId := 0 } "+1000" "").2.records
      = [{ id := 0, phone := "+1000", otp := "0000", verified := false }] := by
  refine ⟨rfl, rfl, by decide, by decide, by decide⟩

/-- C1: when exactly one unverified record matches (phone, code), the first
`verifyOtp` call returns true and marks that record verified, and a second
call with the same arguments returns false. -/
theorem verifyOtp_single_use (s : OtpStore) (phone code : String)
    (h : (s.records.filter (otpMatch phone code)).length = 1) :
    (verifyOtp s phone code).1 = true
    ∧ (∃ r, findUnverifiedMatch s phone code = some r
        ∧ { r with verified := true } ∈ (verifyOtp s phone code).2.records)
    ∧ (verifyOtp (verifyOtp s phone code).2 phone code).1 = false := by
  obtain ⟨a, ha⟩ := List.length_eq_one.1 h
  have hfind : findUnverifiedMatch s phone code = some a :=
    find?_of_filter_eq_singleton ha
  have hv : verifyOtp s phone code = (true, markVerified s a.id) := by
    rw [verifyOtp, hfind]
  refine ⟨by rw [hv], ⟨a, hfind, ?_⟩, ?_⟩
  · rw [hv]
    have hmem : a ∈ s.records := List.mem_of_find?_eq_some hfind
    rw [markVerified]
    exact List.mem_map.2 ⟨a, hmem, by simp⟩
  · rw [hv]
    have h2 := no_unverified_match_after_mark (s := s) ha
    rw [verifyOtp, h2]

/-- C1 witness: on the sample store the first verification succeeds and
flips the record, the repeat fails. -/
theorem verifyOtp_single_use_witness :
    (sampleStore.records.filter (otpMatch "+15551234567" "482913")).length = 1
    ∧ ((verifyOtp sampleStore "+15551234567" "482913").1 = true
      ∧ (∃ r, findUnverifiedMatch sampleStore "+15551234567" "482913" = some r
          ∧ { r with verified := true }
            ∈ (verifyOtp sampleStore "+15551234567" "482913").2.records)
      ∧ (verifyOtp (verifyOtp sampleStore "+15551234567" "482913").2
          "+15551234567" "482913").1 = false) :=
  ⟨by decide, verifyOtp_single_use sampleStore "+15551234567" "482913" (by decide)⟩

/-- C5: when the OTP does not verify, `authenticate` returns the failure
reason "Invalid OTP", performs no directory operation, and changes neither
the store nor the directory. -/
theorem authenticate_invalid_otp (opts : PluginOptions) (s : OtpStore)
    (d : Directory) (phone otp : String)
    (h : (verifyOtp s phone otp).1 = false) :
    authenticate opts s d phone otp =
      { result := .failure "Invalid OTP", store := s, dir := d, ops := [] } := by
  have hs : (verifyOtp s phone otp).2 = s := by
    cases hf : findUnverifiedMatch s phone otp with
    | some r =>
      rw [verifyOtp, hf] at h
      exact Bool.noConfusion h
    | none => rw [verifyOtp, hf]
  simp [authenticate, h, hs]

/-- C5 witness: a wrong code against the sample store yields "Invalid OTP"
with no directory operation. -/
theorem authenticate_invalid_otp_witness :
    (verifyOtp sampleStore "+15551234567" "000000").1 = false
    ∧ authenticate sampleOpts sampleStore emptyDir "+15551234567" "000000" =
      { result := .failure "Invalid OTP", store := sampleStore
      , dir := emptyDir, ops := [] } :=
  ⟨by decide,
    authenticate_invalid_otp sampleOpts sampleStore emptyDir
      "+15551234567" "000000" (by decide)⟩

/-- C6: code verifies, no identity exists for ("phone", phone), and the
builder returns an empty email address: `authenticate` fails with "Valid
default email address is required", having performed only the identity
lookup — no identity creation, the directory is unchanged. -/
theorem authenticate_empty_email (opts : PluginOptions) (s : OtpStore)
    (d : Directory) (phone otp : String)
    (h1 : (verifyOtp s phone otp).1 = true)
    (h2 : findCustomerUser d "phone" phone = none)
    (h3 : (opts.defaultUserDataBuilder phone).emailAddress.length = 0) :
    authenticate opts s d phone otp =
      { result := .failure "Valid default email address is required"
      , store := (verifyOtp s phone otp).2, dir := d
      , ops := [.findUser "phone" phone] } := by
  simp [authenticate, h1, h2, h3]

/-- C6 witness: an empty-email builder makes authentication fail after the
lookup only. -/
theorem authenticate_empty_email_witness :
    (verifyOtp sampleStore "+15551234567" "482913").1 = true
    ∧ findCustomerUser emptyDir "phone" "+15551234567" = none
    ∧ (emptyEmailOpts.defaultUserDataBuilder "+15551234567").emailAddress.length = 0
    ∧ authenticate emptyEmailOpts sampleStore emptyDir "+15551234567" "482913" =
      { result := .failure "Valid default email address is required"
      , store := (verifyOtp sampleStore "+15551234567" "482913").2, dir := emptyDir
      , ops := [.findUser "phone" "+15551234567"] } :=
  ⟨by decide, by decide, by decide,
    authenticate_empty_email emptyEmailOpts sampleStore emptyDir
      "+15551234567" "482913" (by decide) (by decide) (by decide)⟩

/-- C7: on the new-identity path (code verifies, no existing identity,
non-empty builder email), `authenticate` creates the identity with strategy
"phone", external identifier = phone, `verified = true` and the builder's
profile fields, then updates the underlying customer setting both
`phoneNumber` and `firstName` to the raw phone string, and returns the new
identity. -/
theorem authenticate_creates_identity (opts : PluginOptions) (s : OtpStore)
    (d : Directory) (phone otp : String)
    (h1 : (verifyOtp s phone otp).1 = true)
    (h2 : findCustomerUser d "phone" phone = none)
    (h3 : (opts.defaultUserDataBuilder phone).emailAddress.length ≠ 0) :
    authenticate opts s d phone otp =
      { result := .user { id := d.nextId, strategy := "phone"
                        , externalIdentifier := phone, verified := true }
      , store := (verifyOtp s phone otp).2
      , dir :=
          { users := { id := d.nextId, strategy := "phone"
                     , externalIdentifier := phone, verified := true } :: d.users
          , customers :=
              { id := d.nextId + 1, userId := d.nextId
              , emailAddress := (opts.defaultUserDataBuilder phone).emailAddress
              , firstName := phone
              , lastName := (opts.defaultUserDataBuilder phone).lastName
              , phoneNumber := phone }
              :: d.customers.map (fun c =>
                   if c.id = d.nextId + 1
                   then { c with phoneNumber := phone, firstName := phone } else c)
          , nextId := d.nextId + 2 }
      , ops := [.findUser "phone" phone,
                .createIdentity "phone" phone true
                  (opts.defaultUserDataBuilder phone).emailAddress
                  (opts.defaultUserDataBuilder phone).firstName
                  (opts.defaultUserDataBuilder phone).lastName,
                .findCustomer d.nextId,
                .updateCustomer (d.nextId + 1) phone phone] } := by
  simp [authenticate, h1, h2, h3, createCustomerAndUser, findOneByUserId,
    updateCustomer, List.find?]

/-- C7 witness: a fresh identity is created for the sample phone — with
strategy "phone", verified, the builder's email — and its customer ends up
with phoneNumber and firstName both equal to the phone. -/
theorem authenticate_creates_identity_witness :
    (verifyOtp sampleStore "+15551234567" "482913").1 = true
    ∧ findCustomerUser emptyDir "phone" "+15551234567" = none
    ∧ (sampleOpts.defaultUserDataBuilder "+15551234567").emailAddress.length ≠ 0
    ∧ (authenticate sampleOpts sampleStore emptyDir "+15551234567" "482913").result
      = .user { id := 0, strategy := "phone"
              , externalIdentifier := "+15551234567", verified := true }
    ∧ (authenticate sampleOpts sampleStore emptyDir "+15551234567" "482913").dir.customers
      = [{ id := 1, userId := 0, emailAddress := "u@x.com"
         , firstName := "+15551234567", lastName := ""
         , phoneNumber := "+15551234567" }] :=
  ⟨by decide, by decide, by decide,
    by rw [authenticate_creates_identity sampleOpts sampleStore emptyDir
        "+15551234567" "482913" (by decide) (by decide) (by decide)]; decide,
    by rw [authenticate_creates_identity sampleOpts sampleStore emptyDir
        "+15551234567" "482913" (by decide) (by decide) (by decide)]; decide⟩

/-! Lemmas for the reachable-state invariant (C4). -/

/-- The update function of `markVerified` preserves the record id. -/
theorem mark_fun_id (id : Nat) (r : OtpRecord) :
    (if r.id = id then { r with verified := true } else r).id = r.id := by
  by_cases h : r.id = id <;> simp [h]

/-- In a pairwise-id-distinct list, records are determined by their id. -/
theorem eq_of_pairwise_id_ne {l : List OtpRecord}
    (hp : l.Pairwise fun a b => a.id ≠ b.id) :
    ∀ a ∈ l, ∀ b ∈ l, a.id = b.id → a = b := by
  induction l with
  | nil => intro a ha; simp at ha
  | cons x xs ih =>
    rw [List.pairwise_cons] at hp
    intro a ha b hb heq
    simp only [List.mem_cons] at ha hb
    rcases ha with rfl | ha <;> rcases hb with rfl | hb
    · rfl
    · exact absurd heq (hp.1 b hb)
    · exact absurd heq.symm (hp.1 a ha)
    · exact ih hp.2 a ha b hb heq

/-- Saving a fresh record preserves store well-formedness. -/
theorem storeWF_save {s : OtpStore} (h : storeWF s) (phone otp : String)
    (v : Bool) : storeWF (s.save phone otp v) := by
  obtain ⟨hb, hp⟩ := h
  constructor
  · intro r hr
    simp only [OtpStore.save, List.mem_append, List.mem_singleton] at hr ⊢
    rcases hr with hr | rfl
    · exact Nat.lt_succ_of_lt (hb r hr)
    · exact Nat.lt_succ_self _
  · simp only [OtpStore.save]
    refine List.pairwise_append.2 ⟨hp, List.pairwise_singleton _ _, ?_⟩
    intro a ha b hbm
    simp only [List.mem_singleton] at hbm
    subst hbm
    exact Nat.ne_of_lt (hb a ha)

/-- Marking a record verified preserves store well-formedness. -/
theorem storeWF_mark {s : OtpStore} (h : storeWF s) (id : Nat) :
    storeWF (markVerified s id) := by
  obtain ⟨hb, hp⟩ := h
  constructor
  · intro r hr
    simp only [markVerified, List.mem_map] at hr
    obtain ⟨r0, hr0, rfl⟩ := hr
    rw [mark_fun_id]
    exact hb r0 hr0
  · simp only [markVerified]
    refine List.pairwise_map.2 (hp.imp ?_)
    intro a b hab
    rw [mark_fun_id, mark_fun_id]
    exact hab

/-- The store after one operation: unchanged (failed delivery, no match),
one fresh unverified record saved, or one id's record marked verified. -/
theorem step_cases (opts : PluginOptions) (s : OtpStore) (op : Op) :
    step opts s op = s
    ∨ (∃ phone code, step opts s op = s.save phone code false)
    ∨ (∃ id, step opts s op = markVerified s id) := by
  cases op with
  | request phone otpArg rand =>
    cases hs : opts.sendOtp with
    | none =>
      refine Or.inr (Or.inl ⟨phone, genCode opts rand, ?_⟩)
      simp only [step, requestOtp, hs]
    | some send =>
      cases hr : send phone (genCode opts rand) with
      | ok u =>
        refine Or.inr (Or.inl ⟨phone, genCode opts rand, ?_⟩)
        simp only [step, requestOtp, hs, hr]
      | error e =>
        refine Or.inl ?_
        simp only [step, requestOtp, hs, hr]
  | verify phone code =>
    cases hf : findUnverifiedMatch s phone code with
    | some r =>
      refine Or.inr (Or.inr ⟨r.id, ?_⟩)
      simp only [step, verifyOtp, hf]
    | none =>
      refine Or.inl ?_
      simp only [step, verifyOtp, hf]

/-- One operation preserves store well-formedness. -/
theorem storeWF_step (opts : PluginOptions) (s : OtpStore) (op : Op)
    (h : storeWF s) : storeWF (step opts s op) := by
  rcases step_cases opts s op with hc | ⟨ph, co, hc⟩ | ⟨id, hc⟩
  · rw [hc]; exact h
  · rw [hc]; exact storeWF_save h ph co false
  · rw [hc]; exact storeWF_mark h id

/-- Every operation sequence from a well-formed store ends well-formed. -/
theorem storeWF_foldl (opts : PluginOptions) (ops : List Op) :
    ∀ s : OtpStore, storeWF s → storeWF (ops.foldl (step opts) s) := by
  induction ops with
  | nil => intro s h; exact h
  | cons op rest ih =>
    intro s h
    exact ih (step opts s op) (storeWF_step opts s op h)

/-- Every reachable store is well-formed. -/
theorem storeWF_run (opts : PluginOptions) (ops : List Op) :
    storeWF (run opts ops) := by
  rw [run]
  refine storeWF_foldl opts ops _ ⟨?_, ?_⟩
  · intro r hr; simp at hr
  · exact List.Pairwise.nil

/-- Over a well-formed store, one operation never lowers a record's
verified flag. -/
theorem step_verified_monotone (opts : PluginOptions) {s : OtpStore} (op : Op)
    (hwf : storeWF s) :
    ∀ r ∈ s.records, ∀ r' ∈ (step opts s op).records,
      r'.id = r.id → r.verified = true → r'.verified = true := by
  intro r hr r' hr' hid hv
  rcases step_cases opts s op with hc | ⟨ph, co, hc⟩ | ⟨id, hc⟩
  · rw [hc] at hr'
    rw [eq_of_pairwise_id_ne hwf.2 r' hr' r hr hid]
    exact hv
  · rw [hc] at hr'
    simp only [OtpStore.save, List.mem_append, List.mem_singleton] at hr'
    rcases hr' with h1 | h1
    · rw [eq_of_pairwise_id_ne hwf.2 r' h1 r hr hid]
      exact hv
    · have hlt := hwf.1 r hr
      rw [← hid, h1] at hlt
      exact absurd hlt (Nat.lt_irrefl _)
  · rw [hc] at hr'
    simp only [markVerified, List.mem_map] at hr'
    obtain ⟨r0, hr0, rfl⟩ := hr'
    have hid0 : r0.id = r.id := by rw [← mark_fun_id id r0]; exact hid
    rw [eq_of_pairwise_id_ne hwf.2 r0 hr0 r hr hid0]
    by_cases hcase : r.id = id <;> simp [hcase, hv]

/-- A record whose id is fresh relative to the previous store was created
by this operation and is unverified. -/
theorem step_new_record_unverified (opts : PluginOptions) (s : OtpStore)
    (op : Op) :
    ∀ r' ∈ (step opts s op).records,
      (∀ r ∈ s.records, r.id ≠ r'.id) → r'.verified = false := by
  intro r' hr' hfresh
  rcases step_cases opts s op with hc | ⟨ph, co, hc⟩ | ⟨id, hc⟩
  · rw [hc] at hr'
    exact absurd rfl (hfresh r' hr')
  · rw [hc] at hr'
    simp only [OtpStore.save, List.mem_append, List.mem_singleton] at hr'
    rcases hr' with h1 | h1
    · exact absurd rfl (hfresh r' h1)
    · rw [h1]
  · rw [hc] at hr'
    simp only [markVerified, List.mem_map] at hr'
    obtain ⟨r0, hr0, rfl⟩ := hr'
    have := hfresh r0 hr0
    rw [mark_fun_id] at this
    exact absurd rfl this

/-- `findOne({phone, otp, verified: false})` only ever returns an
unverified record. -/
theorem findUnverifiedMatch_unverified (s : OtpStore) (phone code : String) :
    ∀ r, findUnverifiedMatch s phone code = some r → r.verified = false := by
  intro r h
  have hm := List.find?_some h
  simp only [otpMatch, Bool.and_eq_true, beq_iff_eq] at hm
  exact hm.2

/-- C4: over every store reachable from the empty database by requestOtp /
verifyOtp sequences, one further operation never reverts a verified flag
(false→true only), any record new in this step starts unverified, and a
verified record is never matched again by verification. -/
theorem otp_replay_invariant (opts : PluginOptions) (ops : List Op) (op : Op)
    (phone code : String) :
    (∀ r ∈ (run opts ops).records, ∀ r' ∈ (step opts (run opts ops) op).records,
        r'.id = r.id → r.verified = true → r'.verified = true)
    ∧ (∀ r' ∈ (step opts (run opts ops) op).records,
        (∀ r ∈ (run opts ops).records, r.id ≠ r'.id) → r'.verified = false)
    ∧ (∀ r, findUnverifiedMatch (run opts ops) phone code = some r →
        r.verified = false) :=
  ⟨step_verified_monotone opts op (storeWF_run opts ops),
   step_new_record_unverified opts (run opts ops) op,
   findUnverifiedMatch_unverified (run opts ops) phone code⟩

end PhoneAuth
